import Mathlib

/-!
Verification of the feature-normalization logic of the md-2025-review
repository: the `extractFeatures` function of `build-map.js` and the CSV
row construction of `convert-points-to-csv.js`, shallowly embedded over a
model of parsed-JSON JavaScript values.

Modelling conventions:
* A JavaScript value is a `JSVal`.  Numbers are modelled as `Int` (no claim
  performs arithmetic on coordinate values; only `typeof x === 'number'`
  checks and pass-through matter, and integer payloads suffice to witness
  them; `NaN` does not occur in parsed JSON without division).
* Property access `v.k` throws a `TypeError` exactly when `v` is `null` or
  `undefined`; on any other non-object it yields `undefined` (none of the
  accessed keys collide with built-in prototype properties).  This is
  `JSVal.get`, returning `Except Unit`.  `JSVal.getD` is the total variant
  used after a truthiness guard has already ruled out `null`/`undefined`.
* `a || b` returns `a` when `a` is truthy, else `b` (`jsOr`); `a ?? b`
  returns `a` unless it is nullish (`nullishOr`); `a?.k` is `optChain`.
* Calling `forEach` on a truthy non-array value throws, so the loops over
  `mission.portals || []` and `data.missions || []` produce `.error ()`
  in that case, mirroring the runtime `TypeError`.
-/

/-- A parsed JavaScript value (the shapes reachable from `JSON.parse`,
plus `undefined`, which property access can produce). -/
inductive JSVal : Type where
  | undefined : JSVal
  | null : JSVal
  | bool : Bool → JSVal
  | num : Int → JSVal
  | str : String → JSVal
  | arr : List JSVal → JSVal
  | obj : List (String × JSVal) → JSVal

/-- JavaScript truthiness: `undefined`, `null`, `false`, `0` and `""` are
falsy; every other value (in particular every array and object) is truthy. -/
def JSVal.truthy : JSVal → Bool
  | .undefined => false
  | .null => false
  | .bool b => b
  | .num n => !(n == 0)
  | .str s => !(s == "")
  | .arr _ => true
  | .obj _ => true

/-- First binding of a key in an object's field list (JSON objects have
distinct keys, so first match is the object's property). -/
def lookupField : List (String × JSVal) → String → JSVal
  | [], _ => .undefined
  | (k, v) :: rest, key => if k = key then v else lookupField rest key

/-- Total property access: `undefined` for a missing key and for every
non-object receiver (including `null`/`undefined`; use only under guards). -/
def JSVal.getD : JSVal → String → JSVal
  | .obj fields, key => lookupField fields key
  | _, _ => .undefined

/-- Property access as in JavaScript: throws on `null`/`undefined`. -/
def JSVal.get : JSVal → String → Except Unit JSVal
  | .undefined, _ => .error ()
  | .null, _ => .error ()
  | .obj fields, key => .ok (lookupField fields key)
  | _, _ => .ok .undefined

/-- The `typeof v === 'number'` check. -/
def JSVal.isNumber : JSVal → Bool
  | .num _ => true
  | _ => false

/-- The `Array.isArray(v)` check. -/
def JSVal.isArray : JSVal → Bool
  | .arr _ => true
  | _ => false

/-- The array payload of a value, when it is an array. -/
def asArray? : JSVal → Option (List JSVal)
  | .arr xs => some xs
  | _ => none

/-- JavaScript `a || b`. -/
def jsOr (a b : JSVal) : JSVal :=
  if a.truthy then a else b

/-- JavaScript `a ?? b` (nullish coalescing). -/
def nullishOr (a b : JSVal) : JSVal :=
  match a with
  | .null => b
  | .undefined => b
  | _ => a

/-- JavaScript `a?.k` (optional chaining). -/
def optChain (a : JSVal) (key : String) : JSVal :=
  match a with
  | .null => .undefined
  | .undefined => .undefined
  | _ => a.getD key

/-- The `v === 'FeatureCollection'` strict-equality check of `build-map.js`. -/
def isFCType : JSVal → Bool
  | .str s => s == "FeatureCollection"
  | _ => false

/-- The `v === 'Point'` strict-equality check of `build-map.js`. -/
def isPointType : JSVal → Bool
  | .str s => s == "Point"
  | _ => false

/-- The GeoJSON Feature object literal pushed by `extractFeatures`:
`{type:'Feature', properties:{title}, geometry:{type:'Point', coordinates:[lng,lat]}}`. -/
def mkFeature (title lng lat : JSVal) : JSVal :=
  .obj [("type", .str ("Feature")),
        ("properties", .obj [("title", title)]),
        ("geometry", .obj [("type", .str ("Point")),
                           ("coordinates", .arr [lng, lat])])]

/-- The placeholder title `` `Portal ${mi+1}-${pi+1}` `` of `build-map.js`. -/
def portalPlaceholder (mi pi : Nat) : String :=
  "Portal " ++ toString (mi + 1) ++ "-" ++ toString (pi + 1)

/-- One iteration of the flat-point-list loop of `extractFeatures`
(`build-map.js` lines 29-36): push a Feature with title
`p.title || p.name || ''` and coordinates `[p.lng, p.lat]`.  Property
access throws when `p` is `null`/`undefined`. -/
def flatFeature (p : JSVal) : Except Unit JSVal :=
  (p.get ("title")).bind fun title =>
  (p.get ("name")).bind fun name =>
  (p.get ("lng")).bind fun lng =>
  (p.get ("lat")).map fun lat =>
  mkFeature (jsOr (jsOr title name) (.str (""))) lng lat

/-- The `json.forEach` loop of the flat-point-list branch. -/
def flatLoop : List JSVal → Except Unit (List JSVal)
  | [] => .ok []
  | p :: ps =>
    (flatFeature p).bind fun f =>
    (flatLoop ps).map fun rest => f :: rest

/-- Coordinate resolution for one portal (`build-map.js` lines 43-52):
`loc = portal.location || portal.lat || portal.geometry`, then the
`{latitude, longitude}` and `{lat, lng}` encodings are tried on `loc`,
and finally the `geometry` *field of the portal* is tried as a GeoJSON
Point.  Returns the pair `(lat, lng)` (each `undefined` when unresolved). -/
def resolveLatLng (location portalLat geometry : JSVal) : JSVal × JSVal :=
  let loc := jsOr (jsOr location portalLat) geometry
  if loc.truthy && (loc.getD ("latitude")).isNumber && (loc.getD ("longitude")).isNumber then
    (loc.getD ("latitude"), loc.getD ("longitude"))
  else if loc.truthy && (loc.getD ("lat")).isNumber && (loc.getD ("lng")).isNumber then
    (loc.getD ("lat"), loc.getD ("lng"))
  else if geometry.truthy && isPointType (geometry.getD ("type"))
      && (geometry.getD ("coordinates")).isArray then
    match geometry.getD ("coordinates") with
    | .arr cs => (cs.getD 1 .undefined, cs.getD 0 .undefined)
    | _ => (.undefined, .undefined)
  else (.undefined, .undefined)

/-- One iteration of the portal loop of `extractFeatures` (`build-map.js`
lines 42-61): resolve coordinates, and if both are numbers push a Feature
titled `portal.title || placeholder`; otherwise contribute nothing.
Property access throws when `portal` is `null`/`undefined`. -/
def portalFeature (mi pi : Nat) (portal : JSVal) : Except Unit (Option JSVal) :=
  (portal.get ("location")).bind fun location =>
  (portal.get ("lat")).bind fun portalLat =>
  (portal.get ("geometry")).bind fun geometry =>
  let ll := resolveLatLng location portalLat geometry
  if ll.1.isNumber && ll.2.isNumber then
    (portal.get ("title")).map fun title =>
      some (mkFeature (jsOr title (.str (portalPlaceholder mi pi))) ll.2 ll.1)
  else .ok none

/-- The `(mission.portals || []).forEach` loop over portals. -/
def portalsLoop (mi pi : Nat) : List JSVal → Except Unit (List JSVal)
  | [] => .ok []
  | p :: ps =>
    (portalFeature mi pi p).bind fun f? =>
    (portalsLoop mi (pi + 1) ps).map fun rest =>
      match f? with
      | some f => f :: rest
      | none => rest

/-- Processing of one mission: `(mission.portals || []).forEach(...)`.
Reading `mission.portals` throws on a `null`/`undefined` mission, and
calling `forEach` on a truthy non-array `portals` value throws. -/
def missionFeatures (mi : Nat) (mission : JSVal) : Except Unit (List JSVal) :=
  (mission.get ("portals")).bind fun portalsVal =>
  match jsOr portalsVal (.arr []) with
  | .arr ps => portalsLoop mi 0 ps
  | _ => .error ()

/-- The `json.missions.forEach` loop. -/
def missionsLoop (mi : Nat) : List JSVal → Except Unit (List JSVal)
  | [] => .ok []
  | m :: ms =>
    (missionFeatures mi m).bind fun fs =>
    (missionsLoop (mi + 1) ms).map fun rest => fs ++ rest

/-- `extractFeatures` of `build-map.js` (lines 18-64): guard falsy input,
then try in order the FeatureCollection passthrough, the flat point list
(non-empty array whose first element has a numeric `lat`), and the
mission/portal traversal; anything else yields the empty list. -/
def extractFeatures (json : JSVal) : Except Unit (List JSVal) :=
  if json.truthy then
    match asArray? (json.getD ("features")), isFCType (json.getD ("type")) with
    | some fs, true => .ok fs
    | _, _ =>
      match json with
      | .arr [] => .ok []
      | .arr (p0 :: rest) =>
        (p0.get ("lat")).bind fun lat0 =>
          if lat0.isNumber then flatLoop (p0 :: rest) else .ok []
      | _ =>
        match asArray? (json.getD ("missions")) with
        | some ms => missionsLoop 0 ms
        | none => .ok []
  else .ok []

/-!
The CSV converter (`convert-points-to-csv.js`).  Only the `rows`
construction is modelled; quoting/joining and file output are mechanical
formatting outside the claims.  JavaScript's `/\s+/` whitespace class is
modelled by the ASCII whitespace characters (space, tab, LF, CR), which
covers every input the claims exercise.
-/

/-- Space character (code 32). -/
def spaceChar : Char := Char.ofNat 32

/-- Is this one of the modelled `\s` whitespace characters? -/
def isWS (c : Char) : Bool :=
  c == spaceChar || c == Char.ofNat 9 || c == Char.ofNat 10 || c == Char.ofNat 13

/-- `replace(/\s+/g, ' ')`: collapse each maximal whitespace run to a
single space.  The flag records whether the previous character was part of
a run already replaced. -/
def collapseRuns : Bool → List Char → List Char
  | _, [] => []
  | inRun, c :: cs =>
    if isWS c then
      if inRun then collapseRuns true cs
      else spaceChar :: collapseRuns true cs
    else c :: collapseRuns false cs

/-- `trim()` on a string whose only whitespace is single spaces. -/
def trimSpaces (cs : List Char) : List Char :=
  ((cs.dropWhile (fun c => c == spaceChar)).reverse.dropWhile
    (fun c => c == spaceChar)).reverse

/-- `(…).replace(/\s+/g, ' ').trim()` of `convert-points-to-csv.js`. -/
def normalizeWS (s : String) : String :=
  String.mk (trimSpaces (collapseRuns false s.data))

/-- The header row pushed first into `rows`. -/
def csvHeader : List JSVal :=
  [.str ("Mission"), .str ("Index"), .str ("Title"), .str ("Description"),
   .str ("Latitude"), .str ("Longitude"), .str ("Image")]

/-- One row pushed per portal (`convert-points-to-csv.js` lines 11-19):
`[mi+1, pi+1, p.title || "", (p.description || "").replace(/\s+/g," ").trim(),
p.location?.latitude ?? "", p.location?.longitude ?? "", p.imageUrl || ""]`.
Property access throws on a `null`/`undefined` portal, and calling
`.replace` on a truthy non-string `description` throws. -/
def csvRow (mi pi : Nat) (p : JSVal) : Except Unit (List JSVal) :=
  (p.get ("title")).bind fun title =>
  (p.get ("description")).bind fun descRaw =>
  (match jsOr descRaw (.str ("")) with
   | .str s => Except.ok (JSVal.str (normalizeWS s))
   | _ => Except.error ()).bind fun desc =>
  (p.get ("location")).bind fun loc =>
  (p.get ("imageUrl")).map fun img =>
  [JSVal.num (mi + 1), JSVal.num (pi + 1), jsOr title (.str ("")), desc,
   nullishOr (optChain loc ("latitude")) (.str ("")),
   nullishOr (optChain loc ("longitude")) (.str ("")),
   jsOr img (.str (""))]

/-- The `(m.portals || []).forEach` loop of the CSV converter. -/
def csvPortalsLoop (mi pi : Nat) : List JSVal → Except Unit (List (List JSVal))
  | [] => .ok []
  | p :: ps =>
    (csvRow mi pi p).bind fun r =>
    (csvPortalsLoop mi (pi + 1) ps).map fun rest => r :: rest

/-- One mission of the CSV converter: `forEach` on `m.portals || []`
throws for a truthy non-array `portals` value. -/
def csvMission (mi : Nat) (m : JSVal) : Except Unit (List (List JSVal)) :=
  (m.get ("portals")).bind fun pv =>
  match jsOr pv (.arr []) with
  | .arr ps => csvPortalsLoop mi 0 ps
  | _ => .error ()

/-- The `(data.missions || []).forEach` loop of the CSV converter. -/
def csvMissionsLoop (mi : Nat) : List JSVal → Except Unit (List (List JSVal))
  | [] => .ok []
  | m :: ms =>
    (csvMission mi m).bind fun rs =>
    (csvMissionsLoop (mi + 1) ms).map fun rest => rs ++ rest

/-- The full `rows` value of `convert-points-to-csv.js`: the header row
followed by one row per portal in mission-then-portal order. -/
def csvRows (data : JSVal) : Except Unit (List (List JSVal)) :=
  (data.get ("missions")).bind fun mv =>
  match jsOr mv (.arr []) with
  | .arr ms => (csvMissionsLoop 0 ms).map fun rs => csvHeader :: rs
  | _ => .error ()

/-!
Pure counterparts of the throwing traversals.  They are defined only for
comparison theorems: each loop above is proved to agree with its pure
counterpart whenever it completes without a `TypeError`, and the pure
counterparts make order and drop behaviour manifest.
-/

/-- Pure counterpart of `flatFeature`, meaningful when `p` is not
`null`/`undefined`. -/
def flatFeatureP (p : JSVal) : JSVal :=
  mkFeature (jsOr (jsOr (p.getD ("title")) (p.getD ("name"))) (.str ("")))
    (p.getD ("lng")) (p.getD ("lat"))

/-- Pure counterpart of `portalFeature`, meaningful when `portal` is not
`null`/`undefined`. -/
def portalFeatureP (mi pi : Nat) (portal : JSVal) : Option JSVal :=
  let ll := resolveLatLng (portal.getD ("location")) (portal.getD ("lat"))
    (portal.getD ("geometry"))
  if ll.1.isNumber && ll.2.isNumber then
    some (mkFeature (jsOr (portal.getD ("title")) (.str (portalPlaceholder mi pi)))
      ll.2 ll.1)
  else none

/-- The portal list a mission contributes: its `portals` field when that
is an array, the empty list when it is falsy (the remaining case throws). -/
def portalListOf (mission : JSVal) : List JSVal :=
  match jsOr (mission.getD ("portals")) (.arr []) with
  | .arr ps => ps
  | _ => []

/-- Row-major traversal of one mission's portals, keeping exactly the
portals whose coordinates resolve, in input order. -/
def specPortals (mi pi : Nat) : List JSVal → List JSVal
  | [] => []
  | p :: ps =>
    match portalFeatureP mi pi p with
    | some f => f :: specPortals mi (pi + 1) ps
    | none => specPortals mi (pi + 1) ps

/-- Row-major traversal of the missions (missions outer, portals inner). -/
def specMissions (mi : Nat) : List JSVal → List JSVal
  | [] => []
  | m :: ms => specPortals mi 0 (portalListOf m) ++ specMissions (mi + 1) ms

/-- Pure counterpart of `csvRow`, meaningful when `csvRow` succeeds. -/
def pureCsvRow (mi pi : Nat) (p : JSVal) : List JSVal :=
  [JSVal.num (mi + 1), JSVal.num (pi + 1), jsOr (p.getD ("title")) (.str ("")),
   (match jsOr (p.getD ("description")) (.str ("")) with
    | .str s => JSVal.str (normalizeWS s)
    | _ => JSVal.str ("")),
   nullishOr (optChain (p.getD ("location")) ("latitude")) (.str ("")),
   nullishOr (optChain (p.getD ("location")) ("longitude")) (.str ("")),
   jsOr (p.getD ("imageUrl")) (.str (""))]

/-- Row-major CSV rows of one mission: exactly one row per portal. -/
def specCsvPortals (mi pi : Nat) : List JSVal → List (List JSVal)
  | [] => []
  | p :: ps => pureCsvRow mi pi p :: specCsvPortals mi (pi + 1) ps

/-- Row-major CSV rows of the missions (missions outer, portals inner). -/
def specCsvMissions (mi : Nat) : List JSVal → List (List JSVal)
  | [] => []
  | m :: ms => specCsvPortals mi 0 (portalListOf m) ++ specCsvMissions (mi + 1) ms

/-- The mission list the CSV converter iterates over: `data.missions`
when that is an array, the empty list when it is falsy. -/
def missionsListOf (data : JSVal) : List JSVal :=
  match jsOr (data.getD ("missions")) (.arr []) with
  | .arr ms => ms
  | _ => []

/-- The CanonicalFeature invariant from the specification's data model:
both coordinates of the feature's geometry are present and numeric. -/
def featureCoordsNumeric (f : JSVal) : Bool :=
  match (f.getD ("geometry")).getD ("coordinates") with
  | .arr cs => (cs.getD 0 .undefined).isNumber && (cs.getD 1 .undefined).isNumber
  | _ => false

/-- Modelled from the spec's words for claim C6: all three coordinate
encodings are tried, in order, on the resolved location source itself,
the third requiring a GeoJSON Point with a 2-element numeric
`coordinates` array.  (The source instead consults `portal.geometry`
directly for the third encoding and never checks the array's length.) -/
def specResolveLatLng (loc : JSVal) : Option (JSVal × JSVal) :=
  if loc.truthy && (loc.getD ("latitude")).isNumber && (loc.getD ("longitude")).isNumber then
    some (loc.getD ("latitude"), loc.getD ("longitude"))
  else if loc.truthy && (loc.getD ("lat")).isNumber && (loc.getD ("lng")).isNumber then
    some (loc.getD ("lat"), loc.getD ("lng"))
  else if loc.truthy && isPointType (loc.getD ("type")) then
    match loc.getD ("coordinates") with
    | .arr [lng, lat] => if lng.isNumber && lat.isNumber then some (lat, lng) else none
    | _ => none
  else none

/-!  Helper lemmas. -/

/-- On any value other than `null`/`undefined`, property access does not
throw and agrees with the total variant. -/
theorem get_eq_getD (v : JSVal) (k : String) (h1 : v ≠ JSVal.null)
    (h2 : v ≠ JSVal.undefined) : v.get k = .ok (v.getD k) := by
  cases v <;> first
    | rfl
    | exact absurd rfl h1
    | exact absurd rfl h2

/-- On a non-`null`, non-`undefined` portal, the portal step never throws
and agrees with its pure counterpart. -/
theorem portalFeature_eq (mi pi : Nat) (p : JSVal) (h1 : p ≠ JSVal.null)
    (h2 : p ≠ JSVal.undefined) :
    portalFeature mi pi p = .ok (portalFeatureP mi pi p) := by
  unfold portalFeature portalFeatureP
  rw [get_eq_getD p ("location") h1 h2, get_eq_getD p ("lat") h1 h2,
    get_eq_getD p ("geometry") h1 h2, get_eq_getD p ("title") h1 h2]
  simp only [Except.bind]
  split <;> rfl

/-- A portal step that completed without throwing computed the pure value. -/
theorem portalFeature_ok (mi pi : Nat) (p : JSVal) (r : Option JSVal)
    (h : portalFeature mi pi p = .ok r) : r = portalFeatureP mi pi p := by
  cases p
  case undefined => simp [portalFeature, JSVal.get, Except.bind] at h
  case null => simp [portalFeature, JSVal.get, Except.bind] at h
  all_goals
    rw [portalFeature_eq mi pi _ (by intro hc; cases hc) (by intro hc; cases hc)] at h
    exact (Except.ok.inj h).symm

/-- A portal loop that completed without throwing produced the row-major
filtered traversal. -/
theorem portalsLoop_ok (mi : Nat) (ps : List JSVal) : ∀ (pi : Nat) (fs : List JSVal),
    portalsLoop mi pi ps = .ok fs → fs = specPortals mi pi ps := by
  induction ps with
  | nil => intro pi fs h; exact (Except.ok.inj h).symm
  | cons p ps ih =>
    intro pi fs h
    simp only [portalsLoop] at h
    cases hpf : portalFeature mi pi p with
    | error e => rw [hpf] at h; simp [Except.bind] at h
    | ok f? =>
      rw [hpf] at h
      simp only [Except.bind] at h
      cases hrec : portalsLoop mi (pi + 1) ps with
      | error e => rw [hrec] at h; simp [Except.map] at h
      | ok rest =>
        rw [hrec] at h
        simp only [Except.map, Except.ok.injEq] at h
        have hf := portalFeature_ok mi pi p f? hpf
        have hr := ih (pi + 1) rest hrec
        simp only [specPortals, ← hf]
        cases f? with
        | some f => rw [← h, hr]
        | none => rw [← h, hr]

/-- A mission whose processing completed produced the filtered traversal
of its portal list. -/
theorem missionFeatures_ok (mi : Nat) (m : JSVal) (fs : List JSVal)
    (h : missionFeatures mi m = .ok fs) : fs = specPortals mi 0 (portalListOf m) := by
  have h1 : m ≠ JSVal.null := by
    intro he; subst he; simp [missionFeatures, JSVal.get, Except.bind] at h
  have h2 : m ≠ JSVal.undefined := by
    intro he; subst he; simp [missionFeatures, JSVal.get, Except.bind] at h
  simp only [missionFeatures] at h
  rw [get_eq_getD m ("portals") h1 h2] at h
  simp only [Except.bind] at h
  unfold portalListOf
  cases hj : jsOr (m.getD ("portals")) (JSVal.arr [])
  case arr ps =>
    rw [hj] at h
    exact portalsLoop_ok mi ps 0 fs h
  all_goals (rw [hj] at h; simp at h)

/-- A missions loop that completed produced the row-major traversal. -/
theorem missionsLoop_ok (ms : List JSVal) : ∀ (mi : Nat) (fs : List JSVal),
    missionsLoop mi ms = .ok fs → fs = specMissions mi ms := by
  induction ms with
  | nil => intro mi fs h; exact (Except.ok.inj h).symm
  | cons m ms ih =>
    intro mi fs h
    simp only [missionsLoop] at h
    cases hm : missionFeatures mi m with
    | error e => rw [hm] at h; simp [Except.bind] at h
    | ok fs1 =>
      rw [hm] at h
      simp only [Except.bind] at h
      cases hrec : missionsLoop (mi + 1) ms with
      | error e => rw [hrec] at h; simp [Except.map] at h
      | ok rest =>
        rw [hrec] at h
        simp only [Except.map, Except.ok.injEq] at h
        simp only [specMissions]
        rw [← h, missionFeatures_ok mi m fs1 hm, ih (mi + 1) rest hrec]

/-- On a non-`null`, non-`undefined` element, the flat-list step never
throws and agrees with its pure counterpart. -/
theorem flatFeature_eq (p : JSVal) (h1 : p ≠ JSVal.null) (h2 : p ≠ JSVal.undefined) :
    flatFeature p = .ok (flatFeatureP p) := by
  unfold flatFeature flatFeatureP
  rw [get_eq_getD p ("title") h1 h2, get_eq_getD p ("name") h1 h2,
    get_eq_getD p ("lng") h1 h2, get_eq_getD p ("lat") h1 h2]
  rfl

/-- The flat-list loop never throws on a list of non-`null`,
non-`undefined` elements and maps the pure step over the list. -/
theorem flatLoop_map (ps : List JSVal)
    (h : ∀ p ∈ ps, p ≠ JSVal.null ∧ p ≠ JSVal.undefined) :
    flatLoop ps = .ok (ps.map flatFeatureP) := by
  induction ps with
  | nil => rfl
  | cons p ps ih =>
    have hp := h p (List.mem_cons_self p ps)
    simp only [flatLoop, List.map]
    rw [flatFeature_eq p hp.1 hp.2, ih (fun q hq => h q (List.mem_cons_of_mem p hq))]
    rfl

/-- The missions list `extractFeatures` iterates over: `json.missions`
when that is an array, else nothing. -/
def missionsArrOf (json : JSVal) : List JSVal :=
  match asArray? (json.getD ("missions")) with
  | some ms => ms
  | none => []

/-- Any feature the pure portal step emits passed the numeric-coordinate
guard, so it satisfies the CanonicalFeature invariant. -/
theorem portalFeatureP_coords (mi pi : Nat) (p f : JSVal)
    (h : portalFeatureP mi pi p = some f) : featureCoordsNumeric f = true := by
  simp only [portalFeatureP] at h
  split at h
  case isTrue hc =>
    rw [← Option.some.inj h]
    simp [featureCoordsNumeric, mkFeature, JSVal.getD, lookupField, List.getD]
    simp only [Bool.and_eq_true] at hc
    exact ⟨hc.2, hc.1⟩
  case isFalse hc => exact Option.noConfusion h

/-- Every feature in a pure portal traversal satisfies the invariant. -/
theorem specPortals_all (mi : Nat) (ps : List JSVal) : ∀ pi : Nat,
    (specPortals mi pi ps).all featureCoordsNumeric = true := by
  induction ps with
  | nil => intro pi; rfl
  | cons p ps ih =>
    intro pi
    simp only [specPortals]
    cases hp : portalFeatureP mi pi p with
    | none => exact ih (pi + 1)
    | some f =>
      simp only [List.all_cons, portalFeatureP_coords mi pi p f hp, ih (pi + 1),
        Bool.and_self]

/-- Every feature in a pure missions traversal satisfies the invariant. -/
theorem specMissions_all (ms : List JSVal) : ∀ mi : Nat,
    (specMissions mi ms).all featureCoordsNumeric = true := by
  induction ms with
  | nil => intro mi; rfl
  | cons m ms ih =>
    intro mi
    simp [specMissions, List.all_append, specPortals_all, ih]

/-- On `null`, `undefined` and the scalar values, `extractFeatures`
returns the empty list without throwing. -/
theorem extractFeatures_prim (json : JSVal)
    (h1 : json.isArray = false) (h2 : ∀ fields, json ≠ JSVal.obj fields) :
    extractFeatures json = .ok [] := by
  cases json
  case arr l => simp [JSVal.isArray] at h1
  case obj fields => exact absurd rfl (h2 fields)
  case undefined => rfl
  case null => rfl
  case bool b => cases b <;> rfl
  case num n => unfold extractFeatures; split <;> rfl
  case str s => unfold extractFeatures; split <;> rfl

/-- When the input is not an array and the FeatureCollection passthrough
does not fire, `extractFeatures` reduces to the missions dispatch. -/
theorem extractFeatures_missions_red (json : JSVal)
    (hnotarr : json.isArray = false)
    (hnfc : asArray? (json.getD ("features")) = none
      ∨ isFCType (json.getD ("type")) = false) :
    extractFeatures json =
      (match asArray? (json.getD ("missions")) with
       | some ms => missionsLoop 0 ms
       | none => .ok []) := by
  cases json
  case arr l => simp [JSVal.isArray] at hnotarr
  case undefined => rfl
  case null => rfl
  case bool b => cases b <;> rfl
  case num n => unfold extractFeatures; split <;> rfl
  case str s => unfold extractFeatures; split <;> rfl
  case obj fields =>
    unfold extractFeatures
    rw [if_pos (show (JSVal.obj fields).truthy = true from rfl)]
    rcases hnfc with hF | hT
    · rw [hF]
    · cases hF : asArray? (JSVal.getD (JSVal.obj fields) ("features"))
      case none => rfl
      case some gs => rw [hT]

/-!  Claim C1. -/

/-- C1 counterexample: the flat-point-list branch emits a feature whose
`lng` coordinate is `undefined` (the element `{lat: 1}` has no `lng`), so
not every feature returned by `extractFeatures` has both coordinates
present and numeric, and the record is not dropped. -/
theorem flat_branch_nonNumeric_cex :
    extractFeatures (JSVal.arr [JSVal.obj [("lat", JSVal.num 1)]]) =
      .ok [mkFeature (JSVal.str ("")) JSVal.undefined (JSVal.num 1)] ∧
    featureCoordsNumeric (mkFeature (JSVal.str ("")) JSVal.undefined (JSVal.num 1)) = false :=
  ⟨rfl, rfl⟩

/-- C1 (amended): for every input that is not an array and is not taken by
the FeatureCollection passthrough — i.e. exactly the inputs served by the
mission/portal branch — every feature in the returned sequence has both
coordinates present and numeric; portals whose coordinates cannot be
resolved to two numbers are dropped.  (The passthrough and flat-list
branches, by contrast, can return features with missing or non-numeric
coordinates.) -/
theorem nested_features_coordsNumeric (json : JSVal) (fs : List JSVal)
    (hnotarr : json.isArray = false)
    (hnfc : asArray? (json.getD ("features")) = none
      ∨ isFCType (json.getD ("type")) = false)
    (h : extractFeatures json = .ok fs) :
    fs.all featureCoordsNumeric = true := by
  rw [extractFeatures_missions_red json hnotarr hnfc] at h
  cases hM : asArray? (json.getD ("missions"))
  case some ms =>
    rw [hM] at h
    rw [missionsLoop_ok ms 0 fs h]
    exact specMissions_all ms 0
  case none =>
    rw [hM] at h
    rw [← Except.ok.inj h]
    rfl

/-- C1 witness: a concrete nested input whose single portal resolves, with
the amended theorem certifying the invariant on the output. -/
theorem nested_features_coordsNumeric_witness :
    ([mkFeature (JSVal.str ("T")) (JSVal.num 2) (JSVal.num 1)] : List JSVal).all
      featureCoordsNumeric = true :=
  nested_features_coordsNumeric
    (JSVal.obj [("missions", JSVal.arr [JSVal.obj [("portals", JSVal.arr
      [JSVal.obj [("title", JSVal.str ("T")),
        ("location", JSVal.obj [("latitude", JSVal.num 1), ("longitude", JSVal.num 2)])]])]])])
    [mkFeature (JSVal.str ("T")) (JSVal.num 2) (JSVal.num 1)]
    rfl (Or.inl rfl) rfl

/-!  Claim C2. -/

/-- C2 counterexample: for the array input `[null]`, evaluating
`typeof json[0].lat` dereferences `null` and `extractFeatures` throws a
`TypeError` instead of returning a sequence. -/
theorem extractFeatures_throws_cex :
    extractFeatures (JSVal.arr [JSVal.null]) = .error () := rfl

/-- C2 (amended): `extractFeatures` returns a sequence (the empty one)
without throwing for `null`, `undefined` and every scalar input, the
falsy ones being guarded at entry; array and object inputs, however, can
make it throw when they contain `null`/`undefined` sub-values (see the
counterexample). -/
theorem extractFeatures_scalar_safe (json : JSVal)
    (h1 : json.isArray = false) (h2 : ∀ fields, json ≠ JSVal.obj fields) :
    extractFeatures json = .ok [] :=
  extractFeatures_prim json h1 h2

/-- C2 witness: the scalar input `5` yields the empty sequence. -/
theorem extractFeatures_scalar_safe_witness :
    extractFeatures (JSVal.num 5) = .ok [] :=
  extractFeatures_scalar_safe (JSVal.num 5) rfl (fun _ h => JSVal.noConfusion h)

/-!  Claim C3. -/

/-- C3: for every input object whose `type` field is the string
`"FeatureCollection"` and whose `features` field is an array,
`extractFeatures` returns exactly that array, unchanged and unvalidated;
since the quantification covers objects that also carry `missions` (or
any other) fields, the passthrough takes precedence over the other shape
rules. -/
theorem featureCollection_passthrough (fields : List (String × JSVal)) (fs : List JSVal)
    (hty : lookupField fields ("type") = JSVal.str ("FeatureCollection"))
    (hfs : lookupField fields ("features") = JSVal.arr fs) :
    extractFeatures (JSVal.obj fields) = .ok fs := by
  unfold extractFeatures
  rw [if_pos (show (JSVal.obj fields).truthy = true from rfl)]
  simp only [JSVal.getD]
  rw [hty, hfs]
  rfl

/-- C3 witness: a FeatureCollection object carrying an (ignored)
`missions` field passes its `features` array through verbatim. -/
theorem featureCollection_passthrough_witness :
    extractFeatures (JSVal.obj [("type", JSVal.str ("FeatureCollection")),
      ("features", JSVal.arr [JSVal.num 7]), ("missions", JSVal.num 5)]) =
      .ok [JSVal.num 7] :=
  featureCollection_passthrough _ _ rfl rfl

/-!  Claim C4. -/

/-- C4 counterexample: a `null` portal yields no coordinate encoding, yet
it does halt processing — dereferencing `portal.location` throws, so the
subsequent resolvable portal of the same mission is never emitted. -/
theorem null_portal_halts_cex :
    extractFeatures (JSVal.obj [("missions", JSVal.arr [JSVal.obj [("portals",
      JSVal.arr [JSVal.null,
        JSVal.obj [("title", JSVal.str ("G")),
          ("location", JSVal.obj [("latitude", JSVal.num 1),
            ("longitude", JSVal.num 2)])]])]])]) = .error () := rfl

/-- C4 (amended): every portal that is not `null`/`undefined` and whose
coordinates do not resolve to two numbers contributes no feature and does
not halt the loop: the loop's result on the remaining portals (and hence
on the remaining missions) is unchanged. -/
theorem unresolved_portal_skipped (mi pi : Nat) (portal : JSVal) (ps : List JSVal)
    (h1 : portal ≠ JSVal.null) (h2 : portal ≠ JSVal.undefined)
    (hdrop : ((resolveLatLng (portal.getD ("location")) (portal.getD ("lat"))
        (portal.getD ("geometry"))).1.isNumber
      && (resolveLatLng (portal.getD ("location")) (portal.getD ("lat"))
        (portal.getD ("geometry"))).2.isNumber) = false) :
    portalsLoop mi pi (portal :: ps) = portalsLoop mi (pi + 1) ps := by
  have hpf : portalFeature mi pi portal = .ok none := by
    rw [portalFeature_eq mi pi portal h1 h2]
    simp [portalFeatureP, hdrop]
  simp only [portalsLoop, hpf, Except.bind]
  cases hrec : portalsLoop mi (pi + 1) ps <;> simp [Except.map]

/-- C4 witness: the empty-object portal resolves no coordinates; the loop
drops it and continues with the rest. -/
theorem unresolved_portal_skipped_witness :
    portalsLoop 0 0 [JSVal.obj []] = portalsLoop 0 1 [] :=
  unresolved_portal_skipped 0 0 (JSVal.obj []) []
    (fun h => JSVal.noConfusion h) (fun h => JSVal.noConfusion h) rfl

/-!  Claim C5. -/

/-- C5 counterexample: two defects at concrete inputs.  First, on
`[{lat:1}, null]` — a non-empty array whose first element has a numeric
`lat` — `extractFeatures` throws at the `null` element instead of emitting
one feature per element.  Second, on
`[{lat:1, lng:2, title:"", name:"B"}]` the emitted title is `"B"`
although a `title` attribute is present: the code tests truthiness, not
presence. -/
theorem flat_list_cex :
    extractFeatures (JSVal.arr [JSVal.obj [("lat", JSVal.num 1)], JSVal.null]) =
      .error () ∧
    extractFeatures (JSVal.arr [JSVal.obj [("lat", JSVal.num 1), ("lng", JSVal.num 2),
      ("title", JSVal.str ("")), ("name", JSVal.str ("B"))]]) =
      .ok [mkFeature (JSVal.str ("B")) (JSVal.num 2) (JSVal.num 1)] :=
  ⟨rfl, rfl⟩

/-- C5 (amended): for every non-empty array input whose first element has
a numeric `lat` attribute and none of whose elements is
`null`/`undefined`, `extractFeatures` emits exactly one feature per
element in order — no element is skipped regardless of missing
coordinates — with coordinates `[lng, lat]` read off the element and
title `title` if truthy, else `name` if truthy, else the empty string
(the shape computed by `flatFeatureP`). -/
theorem flat_list_one_per_element (p0 : JSVal) (rest : List JSVal)
    (hlat : (p0.getD ("lat")).isNumber = true)
    (hne : ∀ p ∈ p0 :: rest, p ≠ JSVal.null ∧ p ≠ JSVal.undefined) :
    extractFeatures (JSVal.arr (p0 :: rest)) = .ok ((p0 :: rest).map flatFeatureP) := by
  have hp0 := hne p0 (List.mem_cons_self p0 rest)
  unfold extractFeatures
  rw [if_pos (show (JSVal.arr (p0 :: rest)).truthy = true from rfl)]
  simp only [JSVal.getD, asArray?, isFCType]
  rw [get_eq_getD p0 ("lat") hp0.1 hp0.2]
  simp only [Except.bind, hlat, if_true]
  exact flatLoop_map (p0 :: rest) hne

/-- C5 witness: a two-element flat list, the second element titled via
`name`, evaluated through the amended theorem. -/
theorem flat_list_one_per_element_witness :
    extractFeatures (JSVal.arr [JSVal.obj [("lat", JSVal.num 1), ("lng", JSVal.num 2)],
      JSVal.obj [("lat", JSVal.num 3), ("lng", JSVal.num 4), ("name", JSVal.str ("B"))]]) =
      .ok [mkFeature (JSVal.str ("")) (JSVal.num 2) (JSVal.num 1),
        mkFeature (JSVal.str ("B")) (JSVal.num 4) (JSVal.num 3)] :=
  flat_list_one_per_element
    (JSVal.obj [("lat", JSVal.num 1), ("lng", JSVal.num 2)])
    [JSVal.obj [("lat", JSVal.num 3), ("lng", JSVal.num 4), ("name", JSVal.str ("B"))]]
    rfl
    (by intro p hp
        simp only [List.mem_cons, List.not_mem_nil, or_false] at hp
        rcases hp with h | h <;> subst h <;>
          exact ⟨fun hc => JSVal.noConfusion hc, fun hc => JSVal.noConfusion hc⟩)

/-!  Claim C6. -/

/-- C6 counterexample: this portal's truthy `location` matches no encoding,
so trying all three encodings on the resolved location source (as the
claim describes, via `specResolveLatLng`) yields nothing — yet the code
emits a feature, taking coordinates from the portal's `geometry` field,
whose `coordinates` array here even has three elements rather than two. -/
theorem encoding_order_cex :
    specResolveLatLng (JSVal.obj [("name", JSVal.str ("L"))]) = none ∧
    portalFeature 0 0 (JSVal.obj [("title", JSVal.str ("T")),
      ("location", JSVal.obj [("name", JSVal.str ("L"))]),
      ("geometry", JSVal.obj [("type", JSVal.str ("Point")),
        ("coordinates", JSVal.arr [JSVal.num 2, JSVal.num 1, JSVal.num 9])])]) =
      .ok (some (mkFeature (JSVal.str ("T")) (JSVal.num 2) (JSVal.num 1))) :=
  ⟨rfl, rfl⟩

/-- C6 (amended): the `{latitude, longitude}` and `{lat, lng}` encodings
are tried, in that order, on the resolved location source
`location || lat || geometry`; when both fail, the third encoding is
consulted on the portal's `geometry` field itself — not on the resolved
source — requiring `type == "Point"` and an array `coordinates` of any
length, whose elements 0 and 1 are used as `lng`/`lat`. -/
theorem encoding_order (location portalLat geometry loc : JSVal)
    (hloc : loc = jsOr (jsOr location portalLat) geometry) :
    ((loc.truthy && (loc.getD ("latitude")).isNumber && (loc.getD ("longitude")).isNumber) = true →
      resolveLatLng location portalLat geometry =
        (loc.getD ("latitude"), loc.getD ("longitude")))
    ∧ ((loc.truthy && (loc.getD ("latitude")).isNumber && (loc.getD ("longitude")).isNumber) = false →
      (loc.truthy && (loc.getD ("lat")).isNumber && (loc.getD ("lng")).isNumber) = true →
      resolveLatLng location portalLat geometry = (loc.getD ("lat"), loc.getD ("lng")))
    ∧ ∀ cs : List JSVal,
      (loc.truthy && (loc.getD ("latitude")).isNumber && (loc.getD ("longitude")).isNumber) = false →
      (loc.truthy && (loc.getD ("lat")).isNumber && (loc.getD ("lng")).isNumber) = false →
      geometry.truthy = true → isPointType (geometry.getD ("type")) = true →
      geometry.getD ("coordinates") = JSVal.arr cs →
      resolveLatLng location portalLat geometry =
        (cs.getD 1 JSVal.undefined, cs.getD 0 JSVal.undefined) := by
  subst hloc
  refine ⟨?_, ?_, ?_⟩
  · intro ha
    simp only [resolveLatLng]
    rw [if_pos ha]
  · intro ha hb
    simp only [resolveLatLng]
    rw [if_neg (by simp [ha]), if_pos hb]
  · intro cs ha hb hg hpt hcoords
    simp only [resolveLatLng]
    rw [if_neg (by simp [ha]), if_neg (by simp [hb]),
      if_pos (by simp [hg, hpt, hcoords, JSVal.isArray]), hcoords]

/-- C6 witness: a location carrying the `{latitude, longitude}` pair is
resolved by the first encoding. -/
theorem encoding_order_witness :
    resolveLatLng (JSVal.obj [("latitude", JSVal.num 1), ("longitude", JSVal.num 2)])
      JSVal.undefined JSVal.undefined = (JSVal.num 1, JSVal.num 2) :=
  (encoding_order _ _ _ _ rfl).1 rfl

/-!  Claim C7. -/

/-- C7 counterexample: a present but truthy non-array `portals` field (an
empty object here) is not treated as an empty portal list: `forEach` is
not a function on it, so `extractFeatures` throws a `TypeError`. -/
theorem portals_nonarray_cex :
    extractFeatures (JSVal.obj [("missions", JSVal.arr
      [JSVal.obj [("portals", JSVal.obj [])]])]) = .error () := rfl

/-- C7 (amended): for inputs not taken by the FeatureCollection
passthrough, a present but non-array `missions` field yields the empty
sequence, not a type error; a falsy (or absent) `portals` field on a
mission is treated as an empty portal list; but a truthy non-array
`portals` value raises a type error instead of being treated as empty. -/
theorem nonarray_fields_policy :
    (∀ fields : List (String × JSVal),
      asArray? (lookupField fields ("missions")) = none →
      (asArray? (lookupField fields ("features")) = none
        ∨ isFCType (lookupField fields ("type")) = false) →
      extractFeatures (JSVal.obj fields) = .ok [])
    ∧ (∀ (mi : Nat) (mission : JSVal), mission ≠ JSVal.null → mission ≠ JSVal.undefined →
      (mission.getD ("portals")).truthy = false →
      missionFeatures mi mission = .ok [])
    ∧ (∀ (mi : Nat) (mission : JSVal), mission ≠ JSVal.null → mission ≠ JSVal.undefined →
      (mission.getD ("portals")).truthy = true →
      (mission.getD ("portals")).isArray = false →
      missionFeatures mi mission = .error ()) := by
  refine ⟨?_, ?_, ?_⟩
  · intro fields hM hF
    rw [extractFeatures_missions_red (JSVal.obj fields) rfl hF]
    simp only [JSVal.getD]
    rw [hM]
  · intro mi mission h1 h2 hfalsy
    unfold missionFeatures
    rw [get_eq_getD mission ("portals") h1 h2]
    simp only [Except.bind]
    have hj : jsOr (mission.getD ("portals")) (JSVal.arr []) = JSVal.arr [] := by
      unfold jsOr
      rw [hfalsy]
      rfl
    rw [hj]
    rfl
  · intro mi mission h1 h2 htruthy hnarr
    unfold missionFeatures
    rw [get_eq_getD mission ("portals") h1 h2]
    simp only [Except.bind]
    have hj : jsOr (mission.getD ("portals")) (JSVal.arr []) = mission.getD ("portals") := by
      unfold jsOr
      rw [htruthy]
      rfl
    rw [hj]
    cases hv : mission.getD ("portals")
    case arr ps =>
      rw [hv] at hnarr
      simp [JSVal.isArray] at hnarr
    all_goals rfl

/-- C7 witness: a non-array `missions` field yields the empty sequence; a
falsy `portals` value acts as an empty portal list; a truthy non-array
`portals` value throws. -/
theorem nonarray_fields_policy_witness :
    extractFeatures (JSVal.obj [("missions", JSVal.num 5)]) = .ok []
    ∧ missionFeatures 0 (JSVal.obj [("portals", JSVal.num 0)]) = .ok []
    ∧ missionFeatures 0 (JSVal.obj [("portals", JSVal.str ("x"))]) = .error () :=
  ⟨nonarray_fields_policy.1 _ rfl (Or.inl rfl),
   nonarray_fields_policy.2.1 0 _ (fun h => JSVal.noConfusion h)
     (fun h => JSVal.noConfusion h) rfl,
   nonarray_fields_policy.2.2 0 _ (fun h => JSVal.noConfusion h)
     (fun h => JSVal.noConfusion h) rfl rfl⟩

/-!  Claim C8. -/

/-- C8: whenever `extractFeatures` returns a sequence for a nested
mission/portal input, that sequence is exactly the row-major traversal
computed by `specMissions` — missions outer, portals inner, portals whose
coordinates do not resolve removed, relative order of the kept features
preserved.  (Inputs on which the traversal throws return no sequence and
are covered by C2/C4.) -/
theorem rowMajor_order (ms : List JSVal) (fs : List JSVal)
    (h : extractFeatures (JSVal.obj [("missions", JSVal.arr ms)]) = .ok fs) :
    fs = specMissions 0 ms := by
  rw [extractFeatures_missions_red (JSVal.obj [("missions", JSVal.arr ms)])
    rfl (Or.inl rfl)] at h
  exact missionsLoop_ok ms 0 fs h

/-- C8 witness: two missions, the coordinate-less second portal of the
first mission dropped, order preserved. -/
theorem rowMajor_order_witness :
    ([mkFeature (JSVal.str ("A")) (JSVal.num 2) (JSVal.num 1),
      mkFeature (JSVal.str ("B")) (JSVal.num 4) (JSVal.num 3)] : List JSVal) =
      specMissions 0 [JSVal.obj [("portals", JSVal.arr [
        JSVal.obj [("title", JSVal.str ("A")),
          ("location", JSVal.obj [("latitude", JSVal.num 1), ("longitude", JSVal.num 2)])],
        JSVal.obj []])],
       JSVal.obj [("portals", JSVal.arr [
        JSVal.obj [("title", JSVal.str ("B")),
          ("location", JSVal.obj [("lat", JSVal.num 3), ("lng", JSVal.num 4)])]])]] :=
  rowMajor_order _ _ rfl

/-!  Claim C9. -/

/-- C9: for a portal whose `location` is truthy yet carries neither
numeric pair, while the portal's own `geometry` field is a `"Point"`
object with an array `coordinates` whose first two elements are numbers,
a feature is still emitted, its coordinates taken from `geometry` — the
fallback inspects the portal directly even though `location` was the
resolved source.  (The first two hypotheses state that the full first and
second encoding guards are false; with a truthy `location` that is
exactly "no numeric pair on the resolved source".) -/
theorem geometry_fallback (mi pi : Nat) (portal : JSVal)
    (gf : List (String × JSVal)) (cs : List JSVal)
    (htr : (portal.getD ("location")).truthy = true)
    (ha : ((portal.getD ("location")).truthy
      && ((portal.getD ("location")).getD ("latitude")).isNumber
      && ((portal.getD ("location")).getD ("longitude")).isNumber) = false)
    (hb : ((portal.getD ("location")).truthy
      && ((portal.getD ("location")).getD ("lat")).isNumber
      && ((portal.getD ("location")).getD ("lng")).isNumber) = false)
    (hg : portal.getD ("geometry") = JSVal.obj gf)
    (hpt : lookupField gf ("type") = JSVal.str ("Point"))
    (hcs : lookupField gf ("coordinates") = JSVal.arr cs)
    (h0 : (cs.getD 0 JSVal.undefined).isNumber = true)
    (h1 : (cs.getD 1 JSVal.undefined).isNumber = true) :
    portalFeature mi pi portal =
      .ok (some (mkFeature (jsOr (portal.getD ("title")) (JSVal.str (portalPlaceholder mi pi)))
        (cs.getD 0 JSVal.undefined) (cs.getD 1 JSVal.undefined))) := by
  have hnn : portal ≠ JSVal.null := by
    intro he; subst he; simp [JSVal.getD, JSVal.truthy] at htr
  have hnu : portal ≠ JSVal.undefined := by
    intro he; subst he; simp [JSVal.getD, JSVal.truthy] at htr
  have hloc : jsOr (jsOr (portal.getD ("location")) (portal.getD ("lat")))
      (portal.getD ("geometry")) = portal.getD ("location") := by
    simp [jsOr, htr]
  have hres : resolveLatLng (portal.getD ("location")) (portal.getD ("lat"))
      (portal.getD ("geometry")) = (cs.getD 1 JSVal.undefined, cs.getD 0 JSVal.undefined) := by
    simp only [resolveLatLng]
    rw [hloc]
    rw [if_neg (by simp [ha]), if_neg (by simp [hb]),
      if_pos (by rw [hg]; simp [JSVal.getD, JSVal.truthy, JSVal.isArray, hpt, hcs]; decide)]
    rw [hg]
    simp only [JSVal.getD]
    rw [hcs]
  rw [portalFeature_eq mi pi portal hnn hnu]
  simp [portalFeatureP, hres]
  exact ⟨by simpa using h1, by simpa using h0⟩

/-- C9 witness: a portal with a truthy but useless `location` and a valid
Point `geometry` still yields a feature with the geometry coordinates. -/
theorem geometry_fallback_witness :
    portalFeature 0 0 (JSVal.obj [("location", JSVal.obj [("name", JSVal.str ("L"))]),
      ("geometry", JSVal.obj [("type", JSVal.str ("Point")),
        ("coordinates", JSVal.arr [JSVal.num 2, JSVal.num 1])]),
      ("title", JSVal.str ("T"))]) =
      .ok (some (mkFeature (JSVal.str ("T")) (JSVal.num 2) (JSVal.num 1))) :=
  geometry_fallback 0 0
    (JSVal.obj [("location", JSVal.obj [("name", JSVal.str ("L"))]),
      ("geometry", JSVal.obj [("type", JSVal.str ("Point")),
        ("coordinates", JSVal.arr [JSVal.num 2, JSVal.num 1])]),
      ("title", JSVal.str ("T"))])
    [("type", JSVal.str ("Point")), ("coordinates", JSVal.arr [JSVal.num 2, JSVal.num 1])]
    [JSVal.num 2, JSVal.num 1]
    rfl rfl rfl rfl rfl rfl rfl rfl

/-!  CSV helper lemmas. -/

/-- A CSV row computation that completed without throwing computed the
pure row. -/
theorem csvRow_ok (mi pi : Nat) (p : JSVal) (r : List JSVal)
    (h : csvRow mi pi p = .ok r) : r = pureCsvRow mi pi p := by
  have hnn : p ≠ JSVal.null := by
    intro he; subst he; simp [csvRow, JSVal.get, Except.bind] at h
  have hnu : p ≠ JSVal.undefined := by
    intro he; subst he; simp [csvRow, JSVal.get, Except.bind] at h
  unfold csvRow at h
  rw [get_eq_getD p ("title") hnn hnu, get_eq_getD p ("description") hnn hnu,
    get_eq_getD p ("location") hnn hnu, get_eq_getD p ("imageUrl") hnn hnu] at h
  simp only [Except.bind] at h
  cases hd : jsOr (p.getD ("description")) (JSVal.str (""))
  case str s =>
    rw [hd] at h
    simp only [Except.bind, Except.map] at h
    unfold pureCsvRow
    rw [hd]
    exact (Except.ok.inj h).symm
  all_goals (rw [hd] at h; simp [Except.bind] at h)

/-- A CSV portal loop that completed produced one pure row per portal. -/
theorem csvPortalsLoop_ok (mi : Nat) (ps : List JSVal) :
    ∀ (pi : Nat) (rs : List (List JSVal)),
    csvPortalsLoop mi pi ps = .ok rs → rs = specCsvPortals mi pi ps := by
  induction ps with
  | nil => intro pi rs h; exact (Except.ok.inj h).symm
  | cons p ps ih =>
    intro pi rs h
    simp only [csvPortalsLoop] at h
    cases hr : csvRow mi pi p with
    | error e => rw [hr] at h; simp [Except.bind] at h
    | ok row =>
      rw [hr] at h
      simp only [Except.bind] at h
      cases hrec : csvPortalsLoop mi (pi + 1) ps with
      | error e => rw [hrec] at h; simp [Except.map] at h
      | ok rest =>
        rw [hrec] at h
        simp only [Except.map, Except.ok.injEq] at h
        simp only [specCsvPortals]
        rw [← h, csvRow_ok mi pi p row hr, ih (pi + 1) rest hrec]

/-- A CSV mission that completed produced the pure rows of its portals. -/
theorem csvMission_ok (mi : Nat) (m : JSVal) (rs : List (List JSVal))
    (h : csvMission mi m = .ok rs) : rs = specCsvPortals mi 0 (portalListOf m) := by
  have h1 : m ≠ JSVal.null := by
    intro he; subst he; simp [csvMission, JSVal.get, Except.bind] at h
  have h2 : m ≠ JSVal.undefined := by
    intro he; subst he; simp [csvMission, JSVal.get, Except.bind] at h
  simp only [csvMission] at h
  rw [get_eq_getD m ("portals") h1 h2] at h
  simp only [Except.bind] at h
  unfold portalListOf
  cases hj : jsOr (m.getD ("portals")) (JSVal.arr [])
  case arr ps =>
    rw [hj] at h
    exact csvPortalsLoop_ok mi ps 0 rs h
  all_goals (rw [hj] at h; simp at h)

/-- A CSV missions loop that completed produced the row-major rows. -/
theorem csvMissionsLoop_ok (ms : List JSVal) : ∀ (mi : Nat) (rs : List (List JSVal)),
    csvMissionsLoop mi ms = .ok rs → rs = specCsvMissions mi ms := by
  induction ms with
  | nil => intro mi rs h; exact (Except.ok.inj h).symm
  | cons m ms ih =>
    intro mi rs h
    simp only [csvMissionsLoop] at h
    cases hm : csvMission mi m with
    | error e => rw [hm] at h; simp [Except.bind] at h
    | ok rs1 =>
      rw [hm] at h
      simp only [Except.bind] at h
      cases hrec : csvMissionsLoop (mi + 1) ms with
      | error e => rw [hrec] at h; simp [Except.map] at h
      | ok rest =>
        rw [hrec] at h
        simp only [Except.map, Except.ok.injEq] at h
        simp only [specCsvMissions]
        rw [← h, csvMission_ok mi m rs1 hm, ih (mi + 1) rest hrec]

/-!  Claim C10. -/

/-- C10 counterexample: a `null` portal does not yield a row with empty
coordinate columns — the converter throws on it, so neither this portal
nor any other contributes a row and no header-plus-rows table exists. -/
theorem csv_null_portal_cex :
    csvRows (JSVal.obj [("missions", JSVal.arr [JSVal.obj [("portals",
      JSVal.arr [JSVal.null, JSVal.obj [("title", JSVal.str ("P"))]])]])]) =
      .error () := rfl

/-- C10 (amended): whenever the converter's `rows` computation completes
without a type error, it emits the header row followed by exactly one row
per portal in row-major order (missions outer, portals inner, computed by
`specCsvMissions`); within a row, `pureCsvRow` puts the empty string in
the latitude/longitude columns exactly when `location` or the respective
field is `null`/`undefined`, passing any other value through.  (A `null`
portal, or a truthy non-string `description`, makes the converter throw
instead — see the counterexample.) -/
theorem csv_rows_spec (data : JSVal) (rs : List (List JSVal))
    (h : csvRows data = .ok rs) :
    rs = csvHeader :: specCsvMissions 0 (missionsListOf data) := by
  have hnn : data ≠ JSVal.null := by
    intro he; subst he; simp [csvRows, JSVal.get, Except.bind] at h
  have hnu : data ≠ JSVal.undefined := by
    intro he; subst he; simp [csvRows, JSVal.get, Except.bind] at h
  unfold csvRows at h
  rw [get_eq_getD data ("missions") hnn hnu] at h
  simp only [Except.bind] at h
  unfold missionsListOf
  cases hj : jsOr (data.getD ("missions")) (JSVal.arr [])
  case arr ms =>
    rw [hj] at h
    have hmap : Except.map (fun rows => csvHeader :: rows) (csvMissionsLoop 0 ms) =
        Except.ok rs := h
    cases hl : csvMissionsLoop 0 ms with
    | error e => rw [hl] at hmap; simp [Except.map] at hmap
    | ok rows =>
      rw [hl] at hmap
      simp only [Except.map, Except.ok.injEq] at hmap
      show rs = csvHeader :: specCsvMissions 0 ms
      rw [← hmap, csvMissionsLoop_ok ms 0 rows hl]
  all_goals (rw [hj] at h; simp [Except.bind] at h)

/-- C10 witness: one portal whose `location.latitude` is `null` — its row
is present with an empty latitude column and the longitude kept. -/
theorem csv_rows_spec_witness :
    ([csvHeader, [JSVal.num 1, JSVal.num 1, JSVal.str (""), JSVal.str (""),
      JSVal.str (""), JSVal.num 5, JSVal.str ("")]] : List (List JSVal)) =
      csvHeader :: specCsvMissions 0 (missionsListOf (JSVal.obj [("missions", JSVal.arr
        [JSVal.obj [("portals", JSVal.arr [JSVal.obj [("location",
          JSVal.obj [("latitude", JSVal.null), ("longitude", JSVal.num 5)])]])]])])) :=
  csv_rows_spec
    (JSVal.obj [("missions", JSVal.arr
      [JSVal.obj [("portals", JSVal.arr [JSVal.obj [("location",
        JSVal.obj [("latitude", JSVal.null), ("longitude", JSVal.num 5)])]])]])])
    [csvHeader, [JSVal.num 1, JSVal.num 1, JSVal.str (""), JSVal.str (""),
      JSVal.str (""), JSVal.num 5, JSVal.str ("")]]
    rfl
